import Mathlib

/-!
Shallow embedding of `examples/tutorial_server_enumerationtype.c`
(open62541 tutorial: custom enumeration data types and data-source
variable nodes), together with theorems checking the natural-language
specification against it.

The C file's mutable globals (`FreeNodeId`, `DataTypes`, `UsedDataTypes`,
and the `static` rotating counter inside `readValue`) are threaded as an
explicit `Globals` state.  Machine integers are modelled as `Nat`/`Int`
with explicit reduction modulo `2 ^ 32` where overflow can occur.
-/

namespace Open62541Enum

/-- `UA_STATUSCODE_GOOD` (0x00000000). -/
def UA_STATUSCODE_GOOD : Nat := 0x00000000

/-- `UA_STATUSCODE_BADNOTFOUND` (0x803E0000), the status the example's
data-source strategies return on their failure paths. -/
def UA_STATUSCODE_BADNOTFOUND : Nat := 0x803E0000

/-- `#define ENUMVALUES_LEN 5` (line 23 of the source). -/
def ENUMVALUES_LEN : Nat := 5

/-- Modulus of the `UA_UInt32` type. -/
def UInt32Mod : Nat := 2 ^ 32

/-- `UA_NodeId` restricted to the numeric form used throughout the example:
`UA_NODEID_NUMERIC(namespaceIndex, identifier)`. -/
structure UA_NodeId where
  namespaceIndex : Nat
  identifier : Nat
deriving DecidableEq, Repr

/-- `UA_LocalizedText`: a (locale, text) pair of strings. -/
structure UA_LocalizedText where
  locale : String
  text : String
deriving DecidableEq, Repr

/-- `UA_EnumValueType`: explicit integer key plus display name and
description. -/
structure UA_EnumValueType where
  value : Int
  displayName : UA_LocalizedText
  description : UA_LocalizedText
deriving DecidableEq, Repr

/-- `UA_Variant`, restricted to the payload shapes the example actually
builds: empty, a scalar `UA_Int32`, or one-dimensional arrays of
`UA_EnumValueType` or `UA_LocalizedText`. -/
inductive UA_Variant where
  | empty
  | scalarInt32 (v : Int)
  | arrayEnumValueType (xs : List UA_EnumValueType)
  | arrayLocalizedText (xs : List UA_LocalizedText)
deriving DecidableEq, Repr

/-- `UA_DataValue` as the example fills it: the variant payload, the
`hasValue` flag, and whether a source timestamp was stamped (the clock
value itself, `UA_DateTime_now()`, is abstracted to the flag). -/
structure UA_DataValue where
  value : UA_Variant
  hasValue : Bool
  hasSourceTimestamp : Bool
deriving DecidableEq, Repr

/-- `UA_DATATYPEKIND_ENUM`, the type-kind tag of enumeration descriptors in
the open62541 generated type table. -/
def UA_DATATYPEKIND_ENUM : Nat := 26

/-- The fields of `UA_DataType` relevant to the example: the ones the
example rewrites (`typeName`, `typeId`, `binaryEncodingId`) plus the
layout fields it copies unchanged from the built-in base descriptor. -/
structure UA_DataType where
  typeName : String
  typeId : UA_NodeId
  binaryEncodingId : UA_NodeId
  memSize : Nat
  typeKind : Nat
  pointerFree : Bool
  overlayable : Bool
  membersSize : Nat
deriving DecidableEq, Repr

/-- `UA_NS0ID_ENUMERATION` (numeric id 29 in namespace 0). -/
def UA_NS0ID_ENUMERATION : Nat := 29

/-- `UA_TYPES[UA_TYPES_ENUMERATION]`: the built-in base descriptor the
example copies; an abstract enumeration, encoded like an `Int32`. -/
def UA_TYPES_ENUMERATION_desc : UA_DataType :=
  { typeName := "Enumeration"
    typeId := ⟨0, UA_NS0ID_ENUMERATION⟩
    binaryEncodingId := ⟨0, UA_NS0ID_ENUMERATION⟩
    memSize := 4
    typeKind := UA_DATATYPEKIND_ENUM
    pointerFree := true
    overlayable := true
    membersSize := 0 }

/-- The zero-initialized descriptor: `static UA_DataType DataTypes[2] = {0}`. -/
def UA_DataType_zero : UA_DataType :=
  { typeName := ""
    typeId := ⟨0, 0⟩
    binaryEncodingId := ⟨0, 0⟩
    memSize := 0
    typeKind := 0
    pointerFree := false
    overlayable := false
    membersSize := 0 }

/-- The C file's process-wide mutable state, threaded explicitly:
`FreeNodeId` (a `UA_UInt32`), the `DataTypes[2]` array with its fill count
`UsedDataTypes`, whether `config->customDataTypes` has been linked to the
array, and the `static UA_Int32 value` counter local to `readValue`. -/
structure Globals where
  FreeNodeId : Nat
  DataTypes : List UA_DataType
  UsedDataTypes : Nat
  customDataTypesLinked : Bool
  readCounter : Int
deriving DecidableEq, Repr

/-- The globals at program start: `FreeNodeId = 0x80000000`, a
zero-initialized two-element `DataTypes` array, `UsedDataTypes = 0`,
`config->customDataTypes == NULL`, and the rotating counter at 0. -/
def initGlobals : Globals :=
  { FreeNodeId := 0x80000000
    DataTypes := [UA_DataType_zero, UA_DataType_zero]
    UsedDataTypes := 0
    customDataTypesLinked := false
    readCounter := 0 }

/-- `++FreeNodeId` with `UA_UInt32` wraparound; returns the new counter
value, which is also the identifier handed out at that allocation site. -/
def bumpFreeNodeId (c : Nat) : Nat := (c + 1) % UInt32Mod

/-- `addEnumerationDataType` (lines 33-56): copies
`UA_TYPES[UA_TYPES_ENUMERATION]`, overwrites its `typeName`, `typeId` and
`binaryEncodingId` with the given name and a freshly allocated node id,
links `config->customDataTypes` on first use, and stores the descriptor at
`DataTypes[UsedDataTypes++]`.  The out-of-bounds array write (undefined
behavior in C, reachable only when `UsedDataTypes` is not below the array
capacity) is modelled as `none`.  The subsequent `UA_Server_addDataTypeNode`
call into the library, asserted `GOOD` by the example, is abstracted. -/
def addEnumerationDataType (g : Globals) (nsIndex : Nat) (name : String) :
    Option (UA_NodeId × Globals) :=
  let fid := bumpFreeNodeId g.FreeNodeId
  let enumerationDataTypeNodeId : UA_NodeId := ⟨nsIndex, fid⟩
  let customEnumDataType :=
    { UA_TYPES_ENUMERATION_desc with
        typeName := name
        typeId := enumerationDataTypeNodeId
        binaryEncodingId := enumerationDataTypeNodeId }
  if g.UsedDataTypes < g.DataTypes.length then
    some (enumerationDataTypeNodeId,
      { g with
          FreeNodeId := fid
          DataTypes := g.DataTypes.set g.UsedDataTypes customEnumDataType
          UsedDataTypes := g.UsedDataTypes + 1
          customDataTypesLinked := true })
  else
    none

/-- Modelled from the spec: `resolve(id) -> TypeDescriptor` of section 4.1,
failing (here `none`, the spec's `UnknownType`) when absent.  The lookup
itself lives in the open62541 library (custom data types are found by
`typeId` in `config->customDataTypes`), not in this repository's sources;
it is realized here as a search by `typeId` over the used part of the
`DataTypes` registry array. -/
def resolve (g : Globals) (id : UA_NodeId) : Option UA_DataType :=
  (g.DataTypes.take g.UsedDataTypes).find? (fun d => decide (d.typeId = id))

/-- The arguments of `readValue` that its body inspects at all: everything
except `dataValue` is explicitly cast to void, and of `dataValue` only its
nullness is branched on before it is written through. -/
structure ReadArgs where
  sourceTimeStamp : Bool
  rangeIsNull : Bool
  dataValueIsNull : Bool
deriving DecidableEq, Repr

/-- Result of one `readValue` invocation: the returned status code, the
globals after the call, and the `UA_DataValue` written through the output
pointer (`none` when that pointer was null). -/
structure ReadResult where
  status : Nat
  globals : Globals
  out : Option UA_DataValue
deriving DecidableEq, Repr

/-- Two's-complement wraparound of an `Int32` increment. -/
def int32wrap (x : Int) : Int := (x + 2 ^ 31) % 2 ^ 32 - 2 ^ 31

/-- `readValue` (lines 146-161): with a null `dataValue` it returns
`UA_STATUSCODE_BADNOTFOUND`; otherwise it pre-increments the static
rotating counter, resets it to 0 once it reaches `ENUMVALUES_LEN`, and
writes the counter through as a scalar `Int32` with `hasValue` set and a
source timestamp stamped.  `UA_Variant_setScalarCopy` can fail only on
allocation failure, which is outside the model, so it is taken as `GOOD`. -/
def readValue (g : Globals) (a : ReadArgs) : ReadResult :=
  if a.dataValueIsNull then
    { status := UA_STATUSCODE_BADNOTFOUND, globals := g, out := none }
  else
    let v0 := int32wrap (g.readCounter + 1)
    let v := if v0 ≥ (ENUMVALUES_LEN : Int) then 0 else v0
    { status := UA_STATUSCODE_GOOD
      globals := { g with readCounter := v }
      out := some { value := .scalarInt32 v, hasValue := true, hasSourceTimestamp := true } }

/-- The arguments of `writeValue` beyond the globals; its body casts every
one of them to void. -/
structure WriteArgs where
  nodeId : UA_NodeId
  rangeIsNull : Bool
  dataValue : Option UA_DataValue
deriving DecidableEq, Repr

/-- `writeValue` (lines 164-176): ignores all of its arguments, touches no
state, and returns `UA_STATUSCODE_BADNOTFOUND` unconditionally. -/
def writeValue (g : Globals) (_a : WriteArgs) : Nat × Globals :=
  (UA_STATUSCODE_BADNOTFOUND, g)

/-- Modelled from the spec: the `WriteRejected` error kind of section 7 is
abstract ("kind, not representation"; the transport layer translates kinds
into protocol status codes).  In this example the bound write strategy
realizes its unconditional write rejection by the concrete status
`UA_STATUSCODE_BADNOTFOUND`. -/
def WriteRejectedStatus : Nat := UA_STATUSCODE_BADNOTFOUND

/-- `UA_VALUERANK_ONE_DIMENSION`. -/
def UA_VALUERANK_ONE_DIMENSION : Int := 1

/-- `UA_VALUERANK_SCALAR`. -/
def UA_VALUERANK_SCALAR : Int := -1

/-- `UA_NS0ID_ENUMVALUETYPE` (numeric id 7594 in namespace 0), the
`typeId` of `UA_TYPES[UA_TYPES_ENUMVALUETYPE]`. -/
def UA_NS0ID_ENUMVALUETYPE : Nat := 7594

/-- `UA_NS0ID_LOCALIZEDTEXT` (numeric id 21 in namespace 0), the `typeId`
of `UA_TYPES[UA_TYPES_LOCALIZEDTEXT]`. -/
def UA_NS0ID_LOCALIZEDTEXT : Nat := 21

/-- The `UA_VariableAttributes` fields the example sets. -/
structure UA_VariableAttributes where
  accessLevelRead : Bool
  accessLevelWrite : Bool
  valueRank : Int
  arrayDimensions : List Nat
  displayName : UA_LocalizedText
  dataType : UA_NodeId
  value : UA_Variant
deriving DecidableEq, Repr

/-- The array built by the loop in `addEnumValues` (lines 72-81): entry `i`
has explicit key `i` and, after the two `snprintf` calls into the
space-padded template buffers, display name `"EnumValue " ++ i` and
description `"Description " ++ i`. -/
def enumValues : List UA_EnumValueType :=
  (List.range ENUMVALUES_LEN).map (fun i =>
    { value := (i : Int)
      displayName := ⟨"", "EnumValue " ++ toString i⟩
      description := ⟨"", "Description " ++ toString i⟩ })

/-- The variable attributes built by `addEnumValues` (lines 62-83):
read-only access, value rank one-dimensional, declared array dimensions
`{ENUMVALUES_LEN}`, data type `EnumValueType`, and the `enumValues` array
as the value. -/
def addEnumValuesAttr : UA_VariableAttributes :=
  { accessLevelRead := true
    accessLevelWrite := false
    valueRank := UA_VALUERANK_ONE_DIMENSION
    arrayDimensions := [ENUMVALUES_LEN]
    displayName := ⟨"", "EnumValues"⟩
    dataType := ⟨0, UA_NS0ID_ENUMVALUETYPE⟩
    value := .arrayEnumValueType enumValues }

/-- `addEnumValues` (lines 59-88) as a state transformer: it allocates one
fresh node id for the property node and changes no other global.  The
`UA_Server_addVariableNode` library call, asserted `GOOD`, is abstracted. -/
def addEnumValues (g : Globals) (nsIndex : Nat) (parentNodeId : UA_NodeId) :
    UA_NodeId × Globals :=
  let fid := bumpFreeNodeId g.FreeNodeId
  (⟨nsIndex, fid⟩, { g with FreeNodeId := fid })

/-- The array built by the loop in `addLocalizedText` (lines 104-109):
entry `i` is the localized text `"EnumString " ++ i` (after `snprintf`
into the space-padded template buffer) with an empty locale; the entries
sit at contiguous 0-based positions, position `i` holding the text for
`i`. -/
def enumStrings : List UA_LocalizedText :=
  (List.range ENUMVALUES_LEN).map (fun i => ⟨"", "EnumString " ++ toString i⟩)

/-- The variable attributes built by `addLocalizedText` (lines 97-111):
read-only access, value rank one-dimensional, declared array dimensions
`{0}`, data type `LocalizedText`, and the `enumStrings` array as the
value. -/
def addLocalizedTextAttr : UA_VariableAttributes :=
  { accessLevelRead := true
    accessLevelWrite := false
    valueRank := UA_VALUERANK_ONE_DIMENSION
    arrayDimensions := [0]
    displayName := ⟨"", "EnumStrings"⟩
    dataType := ⟨0, UA_NS0ID_LOCALIZEDTEXT⟩
    value := .arrayLocalizedText enumStrings }

/-- `addLocalizedText` (lines 94-117) as a state transformer: it allocates
one fresh node id for the property node and changes no other global. -/
def addLocalizedText (g : Globals) (nsIndex : Nat) (parentNodeId : UA_NodeId) :
    UA_NodeId × Globals :=
  let fid := bumpFreeNodeId g.FreeNodeId
  (⟨nsIndex, fid⟩, { g with FreeNodeId := fid })

/-- `addFolderNode` (lines 120-132): allocates a fresh node id for the
folder object node and returns it. -/
def addFolderNode (g : Globals) (nsIndex : Nat) : UA_NodeId × Globals :=
  let fid := bumpFreeNodeId g.FreeNodeId
  (⟨nsIndex, fid⟩, { g with FreeNodeId := fid })

/-- `addVariableNode` (lines 179-201): allocates a fresh node id for the
data-source variable node (bound to the pair `{readValue, writeValue}`)
and changes no other global. -/
def addVariableNode (g : Globals) (dataTypeNodeId : UA_NodeId) (nsIndex : Nat)
    (name : String) (parentNodeId : UA_NodeId) : Globals :=
  let fid := bumpFreeNodeId g.FreeNodeId
  { g with FreeNodeId := fid }

/-- The setup sequence `main` (lines 204-228) runs before entering the
server loop, with the custom namespace index returned by
`UA_Server_addNamespace` taken as 2 (the first free index).  Alongside the
final globals it records the value `UsedDataTypes` had at the moment of
each `DataTypes[UsedDataTypes++]` write, in order.  `none` would mean one
of those writes went out of bounds. -/
def mainSetup : Option (List Nat × Globals) :=
  let g0 := initGlobals
  let (parentNodeId, g1) := addFolderNode g0 2
  let w1 := g1.UsedDataTypes
  match addEnumerationDataType g1 2 "CustomEnumValueType" with
  | none => none
  | some (enumValueType, g2) =>
    let (_, g3) := addEnumValues g2 2 enumValueType
    let g4 := addVariableNode g3 enumValueType 2 "EnumValueTypeVariable" parentNodeId
    let w2 := g4.UsedDataTypes
    match addEnumerationDataType g4 2 "CustomLocalizedTextType" with
    | none => none
    | some (enumLocalizedText, g5) =>
      let (_, g6) := addLocalizedText g5 2 enumLocalizedText
      let g7 := addVariableNode g6 enumLocalizedText 2 "LocalizedTextVariable" parentNodeId
      some ([w1, w2], g7)

/-- Extracts the scalar `Int32` a successful `readValue` wrote through the
output pointer. -/
def readOutInt : Option UA_DataValue → Option Int
  | some d =>
    match d.value with
    | .scalarInt32 v => some v
    | _ => none
  | none => none

/-- `n` consecutive `readValue` invocations with a non-null output
pointer, threading the globals; yields the (status, scalar value) pair of
each call in order. -/
def readSeq (g : Globals) : Nat → List (Nat × Option Int)
  | 0 => []
  | n + 1 =>
    let r := readValue g ⟨false, false, false⟩
    (r.status, readOutInt r.out) :: readSeq r.globals n

/-- Value of the `FreeNodeId` counter after `n` executions of
`++FreeNodeId`; the identifier assigned by the n-th allocation (1-based)
is `freeNodeIdAfter n`. -/
def freeNodeIdAfter : Nat → Nat
  | 0 => 0x80000000
  | n + 1 => bumpFreeNodeId (freeNodeIdAfter n)

/-- Identifier assigned by the n-th node/type allocation of the program
(1-based): each allocation site evaluates `++FreeNodeId` and uses the new
counter value as the numeric identifier. -/
def allocatedId (n : Nat) : Nat := freeNodeIdAfter n

/-- Error kinds of node creation relevant here (spec section 7). -/
inductive AddNodeError where
  | ShapeMismatch
  | UnknownType
deriving DecidableEq, Repr

/-- Modelled from the spec: the array-dimension shape check of section 4.2
(`addVariableNode` "fails with ShapeMismatch if an initial static value's
shape does not match the node's declared array-dimension constraint from
its attributes").  The enforcing code lives in the open62541 library, not
in this repository's sources.  A declared dimension of 0 leaves the length
unconstrained: the example's `EnumStrings` node declares dimensions `{0}`
with a length-5 value and its creation is asserted successful. -/
def checkShape (declaredDim : Nat) (valueLen : Nat) : Except AddNodeError Unit :=
  if declaredDim == 0 || declaredDim == valueLen then .ok () else .error .ShapeMismatch

/-- The descriptor `addEnumerationDataType` builds and stores: the built-in
Enumeration descriptor with only `typeName`, `typeId` and
`binaryEncodingId` replaced. -/
def registeredEnumDataType (ns : Nat) (fid : Nat) (name : String) : UA_DataType :=
  { UA_TYPES_ENUMERATION_desc with
      typeName := name
      typeId := ⟨ns, fid⟩
      binaryEncodingId := ⟨ns, fid⟩ }

/-- The globals after a successful `addEnumerationDataType` call. -/
def afterRegister (g : Globals) (ns : Nat) (name : String) : Globals :=
  { g with
      FreeNodeId := bumpFreeNodeId g.FreeNodeId
      DataTypes := g.DataTypes.set g.UsedDataTypes
        (registeredEnumDataType ns (bumpFreeNodeId g.FreeNodeId) name)
      UsedDataTypes := g.UsedDataTypes + 1
      customDataTypesLinked := true }

/-- C1: starting from internal counter state 0, a sequence of 7 consecutive
successful invocations of the bound node's read strategy `readValue` yields
the scalar values 1, 2, 3, 4, 0, 1, 2 in that order: the counter is
pre-incremented on each read and wraps to 0 when it reaches
`ENUMVALUES_LEN = 5`. -/
theorem C1_rotating_read_sequence (g : Globals) (h : g.readCounter = 0) :
    readSeq g 7 =
      [(UA_STATUSCODE_GOOD, some 1), (UA_STATUSCODE_GOOD, some 2),
       (UA_STATUSCODE_GOOD, some 3), (UA_STATUSCODE_GOOD, some 4),
       (UA_STATUSCODE_GOOD, some 0), (UA_STATUSCODE_GOOD, some 1),
       (UA_STATUSCODE_GOOD, some 2)] := by
  obtain ⟨f, d, u, l, c⟩ := g
  dsimp only at h
  subst h
  rfl

/-- C1 witness: the 7-read sequence evaluated at the program's initial
globals (counter 0). -/
theorem C1_rotating_read_sequence_witness :
    readSeq initGlobals 7 =
      [(UA_STATUSCODE_GOOD, some 1), (UA_STATUSCODE_GOOD, some 2),
       (UA_STATUSCODE_GOOD, some 3), (UA_STATUSCODE_GOOD, some 4),
       (UA_STATUSCODE_GOOD, some 0), (UA_STATUSCODE_GOOD, some 1),
       (UA_STATUSCODE_GOOD, some 2)] :=
  C1_rotating_read_sequence initGlobals rfl

/-- C2: every invocation of the bound node's write strategy `writeValue`,
regardless of the payload (the arguments range over all of `WriteArgs`,
including well-formed data values), fails with the status realizing the
`WriteRejected` error kind in this program, which is not the success
status. -/
theorem C2_write_always_rejected (g : Globals) (a : WriteArgs) :
    (writeValue g a).1 = WriteRejectedStatus ∧
    (writeValue g a).1 ≠ UA_STATUSCODE_GOOD :=
  ⟨rfl, by
    intro hc
    simp [writeValue, UA_STATUSCODE_BADNOTFOUND, UA_STATUSCODE_GOOD] at hc⟩

/-- C8: when the output pointer `dataValue` is null, `readValue` returns
`UA_STATUSCODE_BADNOTFOUND`, writes nothing through, and leaves every
global — in particular the rotating counter — unchanged. -/
theorem C8_null_read_no_mutation (g : Globals) (a : ReadArgs)
    (h : a.dataValueIsNull = true) :
    readValue g a =
      { status := UA_STATUSCODE_BADNOTFOUND, globals := g, out := none } := by
  simp [readValue, h]

/-- C8 witness: the null-output read evaluated at the initial globals. -/
theorem C8_null_read_no_mutation_witness :
    readValue initGlobals ⟨false, false, true⟩ =
      { status := UA_STATUSCODE_BADNOTFOUND, globals := initGlobals, out := none } :=
  C8_null_read_no_mutation initGlobals ⟨false, false, true⟩ rfl

/-- C9: `writeValue` is a constant, side-effect-free function: on every
input it returns `UA_STATUSCODE_BADNOTFOUND` and the unchanged global
state, so any two invocations on any inputs return identical statuses. -/
theorem C9_write_constant (g g2 : Globals) (a a2 : WriteArgs) :
    writeValue g a = (UA_STATUSCODE_BADNOTFOUND, g) ∧
    (writeValue g a).1 = (writeValue g2 a2).1 :=
  ⟨rfl, rfl⟩

/-- C10: the write `DataTypes[UsedDataTypes++]` in `addEnumerationDataType`
never indexes out of bounds: `main` invokes it exactly twice per run, the
recorded values of `UsedDataTypes` at the two writes are 0 and 1, and both
are below the array capacity of 2. -/
theorem C10_registry_writes_in_bounds :
    mainSetup.isSome = true ∧
    mainSetup.map Prod.fst = some [0, 1] ∧
    initGlobals.DataTypes.length = 2 ∧
    List.all [0, 1] (fun w => w < initGlobals.DataTypes.length) = true :=
  ⟨rfl, rfl, rfl, rfl⟩

/-- C7: the `EnumStrings` property value built by `addLocalizedText` is
exactly `ENUMVALUES_LEN = 5` `UA_LocalizedText` entries at contiguous
0-based positions 0..4, and the entry at each position `i` is the one
generated for index `i` — the implicit key of every member equals its
sequence position, with no gaps. -/
theorem C7_localized_strings_positions :
    addLocalizedTextAttr.value = .arrayLocalizedText enumStrings ∧
    enumStrings.length = ENUMVALUES_LEN ∧
    ∀ i, ∀ h : i < enumStrings.length,
      enumStrings.get ⟨i, h⟩ = ⟨"", "EnumString " ++ toString i⟩ := by
  refine ⟨rfl, rfl, ?_⟩
  intro i h
  have h5 : i < 5 := by simpa [enumStrings, ENUMVALUES_LEN] using h
  interval_cases i <;> rfl

/-- C7 witness: the member at position 2 carries the text generated for
index 2. -/
theorem C7_localized_strings_positions_witness :
    enumStrings.length = ENUMVALUES_LEN ∧
    enumStrings.get ⟨2, by decide⟩ = ⟨"", "EnumString " ++ toString 2⟩ :=
  ⟨C7_localized_strings_positions.2.1, C7_localized_strings_positions.2.2 2 (by decide)⟩

/-- C6: a stored array-typed variable node with a declared one-dimensional
array length of `ENUMVALUES_LEN = 5` and an initial value of length 3
fails the shape check with `ShapeMismatch`; with the non-zero declared
dimension, creation passes the check exactly when the value length equals
the declared length.  The example's own two nodes pass: `EnumValues`
(declared length 5, value length 5) and `EnumStrings` (declared dimension
0, i.e. unconstrained, value length 5). -/
theorem C6_shape_mismatch (v : List Int) (hv : v.length = 3) :
    checkShape ENUMVALUES_LEN v.length = .error .ShapeMismatch ∧
    checkShape (addEnumValuesAttr.arrayDimensions.headD 0) enumValues.length = .ok () ∧
    checkShape (addLocalizedTextAttr.arrayDimensions.headD 0) enumStrings.length = .ok () ∧
    (∀ n, checkShape ENUMVALUES_LEN n = .ok () ↔ n = ENUMVALUES_LEN) := by
  refine ⟨by rw [hv]; rfl, rfl, rfl, ?_⟩
  intro n
  constructor
  · intro hok
    by_contra hne
    have hfalse : (ENUMVALUES_LEN == 0 || ENUMVALUES_LEN == n) = false := by
      simp [ENUMVALUES_LEN] at hne ⊢
      omega
    simp [checkShape, hfalse] at hok
  · intro hn
    subst hn
    rfl

/-- C6 witness: the shape check at the concrete length-3 initial value
`[0, 1, 2]`. -/
theorem C6_shape_mismatch_witness :
    checkShape ENUMVALUES_LEN ([0, 1, 2] : List Int).length = .error .ShapeMismatch ∧
    checkShape (addEnumValuesAttr.arrayDimensions.headD 0) enumValues.length = .ok () ∧
    checkShape (addLocalizedTextAttr.arrayDimensions.headD 0) enumStrings.length = .ok () ∧
    (∀ n, checkShape ENUMVALUES_LEN n = .ok () ↔ n = ENUMVALUES_LEN) :=
  C6_shape_mismatch [0, 1, 2] rfl

/-- C4: every `readValue` call with a non-null output pointer succeeds,
mutates only the binding's own rotating counter (every other global is
unchanged), keeps the counter in the range `[0, ENUMVALUES_LEN)`, and
writes through a scalar `Int32` data value — never any other value shape
or type. -/
theorem C4_read_confined_and_typed (g : Globals) (a : ReadArgs)
    (hnull : a.dataValueIsNull = false)
    (hlo : 0 ≤ g.readCounter) (hhi : g.readCounter < (ENUMVALUES_LEN : Int)) :
    (readValue g a).status = UA_STATUSCODE_GOOD ∧
    (readValue g a).globals.FreeNodeId = g.FreeNodeId ∧
    (readValue g a).globals.DataTypes = g.DataTypes ∧
    (readValue g a).globals.UsedDataTypes = g.UsedDataTypes ∧
    (readValue g a).globals.customDataTypesLinked = g.customDataTypesLinked ∧
    0 ≤ (readValue g a).globals.readCounter ∧
    (readValue g a).globals.readCounter < (ENUMVALUES_LEN : Int) ∧
    (readValue g a).out =
      some { value := .scalarInt32 ((readValue g a).globals.readCounter)
             hasValue := true
             hasSourceTimestamp := true } := by
  have hhi5 : g.readCounter < 5 := by
    have e : (ENUMVALUES_LEN : Int) = 5 := by norm_num [ENUMVALUES_LEN]
    rw [e] at hhi
    exact hhi
  have hwrap : int32wrap (g.readCounter + 1) = g.readCounter + 1 := by
    have e1 : (2 : Int) ^ 31 = 2147483648 := by norm_num
    have e2 : (2 : Int) ^ 32 = 4294967296 := by norm_num
    unfold int32wrap
    rw [e1, e2, Int.emod_eq_of_lt (by omega) (by omega)]
    omega
  have hr : readValue g a =
      { status := UA_STATUSCODE_GOOD
        globals := { g with readCounter :=
          if g.readCounter + 1 ≥ (ENUMVALUES_LEN : Int) then 0 else g.readCounter + 1 }
        out := some { value := .scalarInt32
                        (if g.readCounter + 1 ≥ (ENUMVALUES_LEN : Int) then 0
                         else g.readCounter + 1)
                      hasValue := true
                      hasSourceTimestamp := true } } := by
    rw [readValue, if_neg (by simp [hnull]), hwrap]
  rw [hr]
  have e : (ENUMVALUES_LEN : Int) = 5 := by norm_num [ENUMVALUES_LEN]
  refine ⟨rfl, rfl, rfl, rfl, rfl, ?_, ?_, rfl⟩
  · dsimp only
    rw [e]
    split <;> omega
  · dsimp only
    rw [e]
    split <;> omega

/-- C4 witness: a non-null read at the initial globals (counter 0). -/
theorem C4_read_confined_and_typed_witness :
    (readValue initGlobals ⟨false, false, false⟩).status = UA_STATUSCODE_GOOD ∧
    (readValue initGlobals ⟨false, false, false⟩).globals.FreeNodeId = initGlobals.FreeNodeId ∧
    (readValue initGlobals ⟨false, false, false⟩).globals.DataTypes = initGlobals.DataTypes ∧
    (readValue initGlobals ⟨false, false, false⟩).globals.UsedDataTypes = initGlobals.UsedDataTypes ∧
    (readValue initGlobals ⟨false, false, false⟩).globals.customDataTypesLinked = initGlobals.customDataTypesLinked ∧
    0 ≤ (readValue initGlobals ⟨false, false, false⟩).globals.readCounter ∧
    (readValue initGlobals ⟨false, false, false⟩).globals.readCounter < (ENUMVALUES_LEN : Int) ∧
    (readValue initGlobals ⟨false, false, false⟩).out =
      some { value := .scalarInt32 ((readValue initGlobals ⟨false, false, false⟩).globals.readCounter)
             hasValue := true
             hasSourceTimestamp := true } :=
  C4_read_confined_and_typed initGlobals ⟨false, false, false⟩ rfl (by decide)
    (by norm_num [initGlobals, ENUMVALUES_LEN])

/-- Taking one past an in-bounds updated index splits off the written
element. -/
theorem take_succ_set {α : Type} (l : List α) (u : Nat) (d : α) (h : u < l.length) :
    (l.set u d).take (u + 1) = l.take u ++ [d] := by
  induction l generalizing u with
  | nil => simp at h
  | cons x xs ih =>
    cases u with
    | zero => simp
    | succ u =>
      simp only [List.set, List.take, List.cons_append, List.cons.injEq, true_and]
      exact ih u (by simpa using h)

/-- `find?` skips a leading block on which the predicate is false. -/
theorem find?_append_left_none {α : Type} (p : α → Bool) (l1 l2 : List α)
    (h : ∀ x ∈ l1, p x = false) :
    (l1 ++ l2).find? p = l2.find? p := by
  induction l1 with
  | nil => rfl
  | cons x xs ih =>
    have hx : p x = false := h x (by simp)
    simp only [List.cons_append, List.find?, hx]
    exact ih (fun y hy => h y (by simp [hy]))

/-- C5: registering a custom enumeration type and then resolving its
identifier round-trips.  Whenever the `DataTypes` registry has room and
the freshly allocated identifier does not collide with an already stored
one, `addEnumerationDataType` returns an identifier `id` such that
resolving `id` yields exactly the built-in Enumeration descriptor with
only `typeName`, `typeId` and `binaryEncodingId` replaced — in particular
its type name is the registered name and its kind tag is
`UA_DATATYPEKIND_ENUM`. -/
theorem C5_register_resolve_roundtrip (g : Globals) (ns : Nat) (name : String)
    (hroom : g.UsedDataTypes < g.DataTypes.length)
    (hfresh : ∀ d ∈ g.DataTypes.take g.UsedDataTypes,
      d.typeId ≠ UA_NodeId.mk ns (bumpFreeNodeId g.FreeNodeId)) :
    ∃ id g2,
      addEnumerationDataType g ns name = some (id, g2) ∧
      resolve g2 id =
        some { UA_TYPES_ENUMERATION_desc with
                 typeName := name, typeId := id, binaryEncodingId := id } ∧
      (resolve g2 id).map UA_DataType.typeName = some name ∧
      (resolve g2 id).map UA_DataType.typeKind = some UA_DATATYPEKIND_ENUM := by
  have hres : resolve (afterRegister g ns name) ⟨ns, bumpFreeNodeId g.FreeNodeId⟩ =
      some (registeredEnumDataType ns (bumpFreeNodeId g.FreeNodeId) name) := by
    unfold resolve afterRegister
    dsimp only
    rw [take_succ_set _ _ _ hroom]
    rw [find?_append_left_none _ _ _
      (fun x hx => by simpa using hfresh x hx)]
    simp [List.find?, registeredEnumDataType]
  refine ⟨⟨ns, bumpFreeNodeId g.FreeNodeId⟩, afterRegister g ns name, ?_, ?_, ?_, ?_⟩
  · simp [addEnumerationDataType, afterRegister, registeredEnumDataType, hroom]
  · exact hres
  · exact (congrArg (Option.map UA_DataType.typeName) hres).trans rfl
  · exact (congrArg (Option.map UA_DataType.typeKind) hres).trans rfl


/-- C5 witness: registering `"CustomEnumValueType"` from the initial
globals and resolving the returned identifier. -/
theorem C5_register_resolve_roundtrip_witness :
    ∃ id g2,
      addEnumerationDataType initGlobals 2 "CustomEnumValueType" = some (id, g2) ∧
      resolve g2 id =
        some { UA_TYPES_ENUMERATION_desc with
                 typeName := "CustomEnumValueType", typeId := id, binaryEncodingId := id } ∧
      (resolve g2 id).map UA_DataType.typeName = some "CustomEnumValueType" ∧
      (resolve g2 id).map UA_DataType.typeKind = some UA_DATATYPEKIND_ENUM :=
  C5_register_resolve_roundtrip initGlobals 2 "CustomEnumValueType" (by decide)
    (by intro d hd; simp [initGlobals] at hd)

/-- Closed form of the `FreeNodeId` counter after `n` pre-increments. -/
theorem freeNodeIdAfter_closed (n : Nat) :
    freeNodeIdAfter n = (0x80000000 + n) % UInt32Mod := by
  induction n with
  | zero => norm_num [freeNodeIdAfter, UInt32Mod]
  | succ n ih =>
    rw [freeNodeIdAfter, bumpFreeNodeId, ih, Nat.mod_add_mod]
    rfl

/-- C3 counterexample: the claim quantifies over any sequence of node/type
creations, but the `UA_UInt32` counter starting at 0x80000000 wraps: the
identifier assigned by allocation `2 ^ 31` (namely 0) is not greater than
the one assigned by allocation `2 ^ 31 - 1` (namely `2 ^ 32 - 1`), and the
identifier of allocation `2 ^ 32 + 1` repeats that of allocation 1, so the
assigned identifiers are neither strictly increasing nor pairwise
distinct. -/
theorem C3_counterexample :
    allocatedId (2 ^ 31 - 1) = 2 ^ 32 - 1 ∧
    allocatedId (2 ^ 31) = 0 ∧
    ¬ allocatedId (2 ^ 31 - 1) < allocatedId (2 ^ 31) ∧
    allocatedId 1 = allocatedId (2 ^ 32 + 1) ∧
    (1 : Nat) ≠ 2 ^ 32 + 1 := by
  simp only [allocatedId, freeNodeIdAfter_closed, UInt32Mod]
  norm_num

/-- C3 amended: as long as the counter never wraps — any sequence of fewer
than `2 ^ 31` creations, since `FreeNodeId` starts at 0x80000000 — the
assigned numeric identifiers are strictly increasing and pairwise
distinct. -/
theorem C3_monotonic_until_wrap (i j : Nat) (hij : i < j) (hj : j < 2 ^ 31) :
    allocatedId i < allocatedId j ∧ allocatedId i ≠ allocatedId j := by
  have e31 : (2 : Nat) ^ 31 = 2147483648 := by norm_num
  have e32 : (2 : Nat) ^ 32 = 4294967296 := by norm_num
  rw [e31] at hj
  simp only [allocatedId, freeNodeIdAfter_closed, UInt32Mod, e32]
  rw [Nat.mod_eq_of_lt (by omega), Nat.mod_eq_of_lt (by omega)]
  constructor <;> omega

/-- C3 amended witness: the identifiers of the first and second
allocations. -/
theorem C3_monotonic_until_wrap_witness :
    allocatedId 1 < allocatedId 2 ∧ allocatedId 1 ≠ allocatedId 2 :=
  C3_monotonic_until_wrap 1 2 (by norm_num) (by norm_num)

end Open62541Enum
